import Mathlib

/-!
# gizwits_sac_go: the Snoti client, embedded in Lean

A shallow embedding of `snoti_client.go` (with the request types of `req.go` and
the fields of `config.go` that the control flow reads).

Modelling conventions.

* A Go `error` is `Option GoError`; `none` is `nil`.
* The client is a record `SnotiClient` threaded through every method. The
  methods are sequential functions; each goroutine body is a function of its
  own, taken in isolation. A loop carries a budget of iterations and yields a
  `Run`: it returned, it is still running when the budget is used up, it waits
  on a channel, or the process ended in a panic.
* A channel is the list of the values sent and not yet received, with its
  buffer size. A goroutine waits on a receive from an empty channel and on a
  send to a full one; since it is taken in isolation, its function stops there
  (`Run.blocked`): only another goroutine can end the wait.
* Where Go declares a new variable with `:=` inside a nested block, the
  embedding binds a new Lean name (`errInner`, `okInner`) and the named result
  of the enclosing function keeps the value it had.
* The world outside the repository is a parameter: the TCP/TLS connection
  (`Conn`), and `Env` for the dialer, `gabs`, `encoding/json` and the delivery
  of signals. `time.Sleep` is a no-op.
* The goroutine of `log`, the receiver of the three log channels, has no
  function of its own. The goroutine of `watchAppExitSignal` is taken to run
  as soon as it is started: its call of `signal.Notify` panics on a nil
  channel, and otherwise its one effect, setting `isExited`, enters `Start`
  through `Env.signal`.
-/

namespace GizwitsSac

/-! ## Errors -/

/-- Go error values, as far as the client tells them apart: the sentinel
`io.EOF`, a `*net.OpError` with what its `Temporary()` and `Timeout()` report,
any other error value, and `errors.Wrap(cause, msg)`. -/
inductive GoError where
  | EOF
  | OpError (temporary timeout : Bool)
  | New (msg : String)
  | Wrap (cause : GoError) (msg : String)
  deriving DecidableEq, Repr

/-! ## req.go -/

/-- A value stored in `map[string]interface{}`: values `encoding/json` can
serialise, and one (`unsupported`: a channel, a function) it cannot. -/
inductive AttrValue where
  | str (s : String)
  | num (n : Int)
  | bool (b : Bool)
  | unsupported
  deriving DecidableEq, Repr

structure AttrsRCtrlReqItemData where
  Did : String
  Mac : String
  ProductKey : String
  Attrs : List (String × AttrValue)
  deriving DecidableEq, Repr

structure AttrsRCtrlReqItem where
  Cmd : String
  Data : AttrsRCtrlReqItemData
  deriving DecidableEq, Repr

structure AttrsRCtrlReq where
  Cmd : String
  MsgId : String
  Items : List AttrsRCtrlReqItem
  deriving DecidableEq, Repr

structure RCtrlReqItemData where
  Did : String
  Mac : String
  ProductKey : String
  Raw : List Nat
  deriving DecidableEq, Repr

structure RCtrlReqItem where
  Cmd : String
  Data : RCtrlReqItemData
  deriving DecidableEq, Repr

structure RCtrlReq where
  Cmd : String
  MsgId : String
  Items : List RCtrlReqItem
  deriving DecidableEq, Repr

/-- The empty interface `T` of req.go, by dynamic type: a Go string, the two
request structs, or a value of any other dynamic type (`nil` included). -/
inductive T where
  | string (s : String)
  | attrs (r : AttrsRCtrlReq)
  | raw (r : RCtrlReq)
  | other (dynamicType : String)
  deriving DecidableEq, Repr

/-! ## The world outside the repository -/

/-- What `Container.Data()` of gabs holds, by dynamic type: a string, a
`float64` (given by the integer `int(f)` converts it to), or anything else
(`nil` for a missing path or unparsable text, a bool, an array, an object). -/
inductive Data where
  | string (s : String)
  | float64 (f : Int)
  | other
  deriving DecidableEq, Repr

/-- One TLS connection, as the client sees it: the bytes the server sends, the
error `ReadBytes` reports once those bytes hold no further delimiter, and the
outcome of the k-th `SetReadDeadline`, `SetWriteDeadline` and `Write` call. -/
structure Conn where
  incoming : List Char
  streamEnd : GoError
  SetReadDeadline : Nat → Option GoError
  SetWriteDeadline : Nat → Option GoError
  Write : Nat → Option GoError

/-- The libraries and the operating system: `net.DialTimeout` (outcome of the
k-th call and the connection it yields), `gabs.ParseJSON(res).Path(p).Data()`,
`json.Marshal` on a remote control value and on the login request, and whether
a termination signal has been handled by the time `Start` tests `isExited` in
its i-th iteration. -/
structure Env where
  DialTimeout : Nat → Option GoError
  conn : Nat → Conn
  gabs : String → String → Data
  Marshal : T → Except GoError String
  MarshalLoginReq : Except GoError String
  signal : Nat → Bool

/-! ## config.go -/

/-- The fields of `Config` the control flow reads: `Retry`, and
`Callbacks.Write` (`none` is a nil callback, otherwise the value its k-th call
yields). `Callbacks.Read` is recorded in the trace. -/
structure Config where
  Retry : Int
  Write : Option (Nat → T)

/-! ## snoti_client.go: state -/

/-- What the client does to the outside, in order. -/
inductive Event where
  | dial
  | connWrite (data : String) (err : Option GoError)
  | callbackRead (res : String)
  deriving DecidableEq, Repr

/-- The record `SnotiClient`, with the package-level channels and the effects
observed so far. `quitSignal` is `none` for a nil channel, otherwise the buffer
size of the channel that was made. `writeChannelBuffer` is the buffer size of
`writeChannel`. `connReader` holds the bytes of `tlsConn.incoming` not yet
returned; the counters index the outcomes the environment supplies. -/
structure SnotiClient where
  config : Config
  tlsConn : Conn
  connReader : List Char
  isExited : Bool
  isClosed : Bool
  quitSignal : Option Nat
  writeChannel : List String
  writeChannelBuffer : Nat
  errorLogChannel : List (Option GoError)
  infoLogChannel : List String
  warnLogChannel : List String
  trace : List Event
  dials : Nat
  reads : Nat
  writes : Nat
  produced : Nat

/-- How far a loop got within its budget of iterations: it returned, it is
still running, it waits on a channel, or the process ended in a panic. -/
inductive Run (α : Type) where
  | returned (a : α) (s : SnotiClient)
  | running (s : SnotiClient)
  | blocked (s : SnotiClient)
  | panicked (s : SnotiClient)

/-- One pass through a loop body: go round again, `break`, or wait on a
channel. -/
inductive Step where
  | again (s : SnotiClient)
  | broke (s : SnotiClient)
  | waits (s : SnotiClient)

/-! ## snoti_client.go: methods -/

/-- Function `SetWriteChannelBuffer`: a new, empty `writeChannel`. -/
def SetWriteChannelBuffer (s : SnotiClient) (channelBuffer : Nat) : SnotiClient :=
  { s with writeChannel := [], writeChannelBuffer := channelBuffer }

/-- The send `writeChannel <- data`; `none` when the channel is full and the
sender waits. -/
def writeChannelSend (s : SnotiClient) (data : String) : Option SnotiClient :=
  if s.writeChannel.length < s.writeChannelBuffer then
    some { s with writeChannel := s.writeChannel ++ [data] }
  else none

/-- Method `logInfo`: a send on `infoLogChannel`, made with 500 slots; `none`
when the channel is full and the sender waits. -/
def logInfo (s : SnotiClient) (str : String) : Option SnotiClient :=
  if s.infoLogChannel.length < 500 then
    some { s with infoLogChannel := s.infoLogChannel ++ [str] }
  else none

/-- Method `logErr`: a send on `errorLogChannel`, made with 500 slots; `none`
when the channel is full and the sender waits. -/
def logErr (s : SnotiClient) (err : Option GoError) : Option SnotiClient :=
  if s.errorLogChannel.length < 500 then
    some { s with errorLogChannel := s.errorLogChannel ++ [err] }
  else none

/-- Method `logWarn`: a send on `warnLogChannel`, made with 500 slots; `none`
when the channel is full and the sender waits. -/
def logWarn (s : SnotiClient) (str : String) : Option SnotiClient :=
  if s.warnLogChannel.length < 500 then
    some { s with warnLogChannel := s.warnLogChannel ++ [str] }
  else none

/-- The last statement of a goroutine, `logInfo(line)`: the goroutine ends, or
waits on the full channel. -/
def logInfoAndEnd (s : SnotiClient) (line : String) : Run Unit :=
  match logInfo s line with
  | some s1 => Run.returned () s1
  | none => Run.blocked s

def blankString (input : String) : Bool :=
  input == ""

/-- The function `bufio.Reader.ReadBytes(delim)` over the bytes still to come:
the bytes up to and including the first delimiter and `nil`, or, when no
delimiter is left, all the bytes and the error `atEnd`. The third component is
what stays in the reader. -/
def ReadBytes (delim : Char) (atEnd : GoError) :
    List Char → List Char × Option GoError × List Char
  | [] => ([], some atEnd, [])
  | c :: cs =>
    if c = delim then ([c], none, cs)
    else
      let r := ReadBytes delim atEnd cs
      (c :: r.1, r.2.1, r.2.2)

/-- Method `read`. The named result `err` holds what `SetReadDeadline` returned;
`bytes, err := s.connReader.ReadBytes('\n')` sits in the `if` block and declares
`errInner`. -/
def read (s : SnotiClient) : (String × Option GoError) × SnotiClient :=
  let res := ""
  let err := s.tlsConn.SetReadDeadline s.reads
  let s1 := { s with reads := s.reads + 1 }
  if err = none then
    let r := ReadBytes '\n' s.tlsConn.streamEnd s1.connReader
    let bytes := r.1
    let errInner := r.2.1
    let s2 := { s1 with connReader := r.2.2 }
    let res := if errInner = none then String.mk bytes else res
    ((res, err), s2)
  else
    ((res, err), s1)

/-- Method `write`: `err` is assigned (`=`) by both calls. -/
def write (s : SnotiClient) (data : String) : Option GoError × SnotiClient :=
  let err := s.tlsConn.SetWriteDeadline s.writes
  if err = none then
    let err := s.tlsConn.Write s.writes
    (err, { s with writes := s.writes + 1,
                   trace := s.trace ++ [Event.connWrite (data ++ "\n") err] })
  else
    (err, { s with writes := s.writes + 1 })

/-- Method `isNetErr`: sets `isClosed` on `io.EOF` and on a `*net.OpError` that
is neither temporary nor a timeout, and returns `isClosed`. -/
def isNetErr (s : SnotiClient) (err : Option GoError) : Bool × SnotiClient :=
  let s1 := if err = some GoError.EOF then { s with isClosed := true } else s
  let s2 :=
    match err with
    | some (GoError.OpError temporary timeout) =>
      if !temporary && !timeout then { s1 with isClosed := true } else s1
    | _ => s1
  (s2.isClosed, s2)

def isStop (s : SnotiClient) : Bool :=
  s.isClosed || s.isExited

/-- Method `handleRemoteCtrlReq`. `bytes, err := json.Marshal(t)` sits in the
`if ok` block and declares `errInner`; the `else` branch assigns the named
result `err`. -/
def handleRemoteCtrlReq (env : Env) (t : T) : String × Option GoError :=
  let reqString := ""
  let err : Option GoError := none
  let ok := match t with
    | T.attrs _ => true
    | _ => false
  let ok := if !ok then
      (match t with
       | T.raw _ => true
       | _ => false)
    else ok
  if ok then
    match env.Marshal t with
    | Except.ok bytes => (bytes, err)
    | Except.error _errInner => (reqString, err)
  else
    (reqString, some (GoError.New "Invalid Remote Control Req type"))

/-- Method `handleNotiData`. `fDeliveryId, ok := ...` sits in the `case` clause
and declares `okInner`; the named result `ok` is assigned nowhere. The read
callback is invoked with `res`. -/
def handleNotiData (env : Env) (s : SnotiClient) (res : String) :
    (Int × Bool) × SnotiClient :=
  let deliveryId : Int := 0
  let ok := false
  let cmd := match env.gabs res "cmd" with
    | Data.string c => c
    | _ => ""
  let deliveryId :=
    if cmd = "event_push" then
      let a : Int × Bool := match env.gabs res "delivery_id" with
        | Data.float64 f => (f, true)
        | _ => (0, false)
      let fDeliveryId := a.1
      let okInner := a.2
      if okInner then fDeliveryId else deliveryId
    else deliveryId
  let s1 := { s with trace := s.trace ++ [Event.callbackRead res] }
  ((deliveryId, ok), s1)

def eventAck (s : SnotiClient) (deliveryId : Int) : Option GoError × SnotiClient :=
  write s ("\x7b\"cmd\":\"event_ack\",\"delivery_id\": " ++ toString deliveryId ++ " \x7d")

/-- Method `login`. -/
def login (env : Env) (s : SnotiClient) : Option GoError × SnotiClient :=
  match env.MarshalLoginReq with
  | Except.error e => (some e, s)
  | Except.ok bytes => write s bytes

/-- One pass through the body of `NOTI_READ_LOOP`. `res, err := s.read()`
declares the `err` used here. -/
def loopReadBody (env : Env) (s : SnotiClient) : Step :=
  if !isStop s then
    let r := read s
    let res := r.1.1
    let err := r.1.2
    let s1 := r.2
    let q : Option GoError × SnotiClient :=
      if !blankString res then
        let h := handleNotiData env s1 res
        if h.1.2 then eventAck h.2 h.1.1 else (err, h.2)
      else (err, s1)
    let err := q.1
    let n := isNetErr q.2 err
    if n.1 then
      match logErr n.2 err with
      | some s2 => Step.broke s2
      | none => Step.waits n.2
    else Step.again n.2
  else Step.broke s

/-- Method `loopRead`. The argument `err` is the named result, `nil` on entry;
the loop body works on an `err` of its own, and the bare `return` after the
loop hands back the named result. -/
def loopRead (env : Env) : Nat → SnotiClient → Option GoError → Run (Option GoError)
  | 0, s, _ => Run.running s
  | fuel + 1, s, err =>
    match loopReadBody env s with
    | Step.again s1 => loopRead env fuel s1 err
    | Step.broke s1 => Run.returned err s1
    | Step.waits s1 => Run.blocked s1

/-- The goroutine of `loopWrite`: `WRITE_LOOP`, then the log line. -/
def loopWrite : Nat → SnotiClient → Run Unit
  | 0, s => Run.running s
  | fuel + 1, s =>
    if !s.isClosed then
      match s.writeChannel with
      | [] => Run.blocked s
      | msg :: rest =>
        let w := write { s with writeChannel := rest } msg
        let n := isNetErr w.2 w.1
        if n.1 then
          match logErr n.2 w.1 with
          | some s1 => logInfoAndEnd s1 "[SnotiClient Info] ====> Quit Write handler"
          | none => Run.blocked n.2
        else loopWrite fuel n.2
    else logInfoAndEnd s "[SnotiClient Info] ====> Quit Write handler"

/-- One pass through the body of `REMOTE_CTRL_LOOP`, `produce` being the
configured write callback. -/
def loopRemoteCtrlBody (env : Env) (produce : Nat → T) (s : SnotiClient) : Step :=
  if !isStop s then
    let writeData := produce s.produced
    let s1 := { s with produced := s.produced + 1 }
    if writeData = T.string "" then Step.again s1
    else
      let r := handleRemoteCtrlReq env writeData
      let data := r.1
      let err := r.2
      match err with
      | none =>
        (match writeChannelSend s1 data with
         | some s2 => Step.again s2
         | none => Step.waits s1)
      | some e =>
        (match logErr s1
            (some (GoError.Wrap e
              "[SnotiClient Error] ====> Marshal Remote Control Req data failed")) with
         | some s2 => Step.again s2
         | none => Step.waits s1)
  else Step.broke s

/-- The goroutine of `loopRemoteCtrl`: `REMOTE_CTRL_LOOP`, then the log line. -/
def loopRemoteCtrlGo (env : Env) (produce : Nat → T) : Nat → SnotiClient → Run Unit
  | 0, s => Run.running s
  | fuel + 1, s =>
    match loopRemoteCtrlBody env produce s with
    | Step.again s1 => loopRemoteCtrlGo env produce fuel s1
    | Step.broke s1 => logInfoAndEnd s1 "[SnotiClient Info] ====> Quit Remote Control handler"
    | Step.waits s1 => Run.blocked s1

/-- Method `loopRemoteCtrl`, the part that runs in the caller: without a write
callback it logs and returns, otherwise it starts the goroutine. `none` when
the log send waits. -/
def loopRemoteCtrl (s : SnotiClient) : Option SnotiClient :=
  match s.config.Write with
  | none =>
    logInfo s "[SnotiClient Info] ====> Quit Remote Control handler since no write callback defined"
  | some _ => some s

/-- The goroutine of `heartbeat`, one ticker event per iteration. -/
def heartbeat : Nat → SnotiClient → Run Unit
  | 0, s => Run.running s
  | fuel + 1, s =>
    if !s.isClosed then
      match writeChannelSend s "\x7b\"cmd\": \"ping\"\x7d" with
      | some s1 => heartbeat fuel s1
      | none => Run.blocked s
    else logInfoAndEnd s "[SnotiClient Info] ====> Quit Heartbeat handler"

/-- Method `loop`: dial, wrap the connection, log in, start the goroutines
(which does nothing in the caller but for `loopRemoteCtrl`), run `loopRead`. -/
def loop (env : Env) (fuel : Nat) (s : SnotiClient) : Run (Option GoError) :=
  let err := env.DialTimeout s.dials
  let c := env.conn s.dials
  let s1 := { s with dials := s.dials + 1, trace := s.trace ++ [Event.dial] }
  match err with
  | some e =>
    Run.returned
      (some (GoError.Wrap e "[SnotiClient Error] ====> Connect to Snoti API Server failed")) s1
  | none =>
    let s2 := { s1 with tlsConn := c, connReader := c.incoming, reads := 0, writes := 0 }
    let l := login env s2
    match l.1 with
    | some e =>
      Run.returned
        (some (GoError.Wrap e "[SnotiClient Error] ====> Login to Snoti API Server failed")) l.2
    | none =>
      match loopRemoteCtrl l.2 with
      | some s3 => loopRead env fuel s3 none
      | none => Run.blocked l.2

/-- Method `watchAppExitSignal`: the goroutine it starts calls
`signal.Notify(s.quitSignal, ...)`, which panics on a nil channel; `none` is
that panic, which ends the process. -/
def watchAppExitSignal (s : SnotiClient) : Option SnotiClient :=
  match s.quitSignal with
  | none => none
  | some _ => some s

/-- The `for` loop of `Start`, from index `i` on. The signal goroutine sets
`isExited` once `env.signal` reports a handled signal. -/
def StartLoop (env : Env) (fuel : Nat) (retry : Int) (i : Int) (s : SnotiClient) :
    Run Unit :=
  if h : i < retry then
    let s0 := { s with isExited := s.isExited || env.signal i.toNat }
    if !s0.isExited then
      match loop env fuel s0 with
      | Run.returned err s1 =>
        (match logErr s1 err with
         | some s2 => StartLoop env fuel retry (i + 1) s2
         | none => Run.blocked s1)
      | Run.running s1 => Run.running s1
      | Run.blocked s1 => Run.blocked s1
      | Run.panicked s1 => Run.panicked s1
    else StartLoop env fuel retry (i + 1) s0
  else Run.returned () s
termination_by (retry - i).toNat
decreasing_by all_goals omega

/-- Method `Start`: the signal goroutine is started, the retry bound is
`config.Retry`, or 3 when that is 0, and the last log line is sent. -/
def Start (env : Env) (fuel : Nat) (s : SnotiClient) : Run Unit :=
  match watchAppExitSignal s with
  | none => Run.panicked s
  | some s0 =>
    let retry := s0.config.Retry
    let retry := if retry = 0 then 3 else retry
    match StartLoop env fuel retry 0 s0 with
    | Run.returned () s1 => logInfoAndEnd s1 "[SnotiClient Info] ====> going to exit"
    | Run.running s1 => Run.running s1
    | Run.blocked s1 => Run.blocked s1
    | Run.panicked s1 => Run.panicked s1

/-- The client as a loop left it. -/
def Run.state {α : Type} : Run α → SnotiClient
  | Run.returned _ s => s
  | Run.running s => s
  | Run.blocked s => s
  | Run.panicked s => s

/-- The client as a pass through a loop body left it. -/
def Step.state : Step → SnotiClient
  | Step.again s => s
  | Step.broke s => s
  | Step.waits s => s

/-- Number of connection cycles begun so far: calls of `net.DialTimeout`. -/
def cycles (s : SnotiClient) : Nat :=
  s.trace.count Event.dial

/-- The frames handed to `tlsConn.Write`, in order. -/
def wire (s : SnotiClient) : List String :=
  s.trace.filterMap fun e =>
    match e with
    | Event.connWrite data _ => some data
    | _ => none

/-- The frames the read callback was invoked with, in order. -/
def delivered (s : SnotiClient) : List String :=
  s.trace.filterMap fun e =>
    match e with
    | Event.callbackRead res => some res
    | _ => none

/-- Neither flag went from true to false between `s` and `s1`. -/
def flagsKept (s s1 : SnotiClient) : Prop :=
  (s.isClosed = true → s1.isClosed = true) ∧ (s.isExited = true → s1.isExited = true)

/-- Between `s` and `s1` the exiting flag is unchanged, the closed flag was not
cleared, and no connection cycle was begun. -/
def withinCycle (s s1 : SnotiClient) : Prop :=
  s1.isExited = s.isExited ∧ (s.isClosed = true → s1.isClosed = true) ∧ cycles s1 = cycles s

/-- Between `s` and `s1` nothing was sent on the error log or on the info
log. -/
def sameLogs (s s1 : SnotiClient) : Prop :=
  s1.errorLogChannel = s.errorLogChannel ∧ s1.infoLogChannel = s.infoLogChannel

instance (s s1 : SnotiClient) : Decidable (sameLogs s s1) := by
  unfold sameLogs
  infer_instance

instance (s s1 : SnotiClient) : Decidable (flagsKept s s1) := by
  unfold flagsKept
  infer_instance

instance (s s1 : SnotiClient) : Decidable (withinCycle s s1) := by
  unfold withinCycle
  infer_instance

/-! ## Concrete connections, environments and clients -/

/-- A connection on which every call succeeds and whose incoming bytes are
`incoming`, followed by end of stream. -/
def connOf (incoming : List Char) : Conn :=
  { incoming := incoming
    streamEnd := GoError.EOF
    SetReadDeadline := fun _ => none
    SetWriteDeadline := fun _ => none
    Write := fun _ => none }

/-- A connection that was closed locally: every deadline call fails with a
`*net.OpError` that is neither temporary nor a timeout. -/
def deadConn : Conn :=
  { incoming := []
    streamEnd := GoError.EOF
    SetReadDeadline := fun _ => some (GoError.OpError false false)
    SetWriteDeadline := fun _ => some (GoError.OpError false false)
    Write := fun _ => some (GoError.OpError false false) }

/-- A connection on which writes succeed and every `SetReadDeadline` fails with
a `*net.OpError` that is neither temporary nor a timeout. -/
def readDeadConn : Conn :=
  { incoming := []
    streamEnd := GoError.EOF
    SetReadDeadline := fun _ => some (GoError.OpError false false)
    SetWriteDeadline := fun _ => none
    Write := fun _ => none }

/-- Function `NewClient`: only `config` is set, so `quitSignal` is nil. The
package-level channels are empty, with the 500 slots they are made with. The
nil `tlsConn` is stood for by `deadConn`; `loop` replaces it before any use. -/
def NewClient (config : Config) : SnotiClient :=
  { config := config
    tlsConn := deadConn
    connReader := []
    isExited := false
    isClosed := false
    quitSignal := none
    writeChannel := []
    writeChannelBuffer := 500
    errorLogChannel := []
    infoLogChannel := []
    warnLogChannel := []
    trace := []
    dials := 0
    reads := 0
    writes := 0
    produced := 0 }

/-- A new client whose connection `c` has just been set up by `loop`. -/
def connected (config : Config) (c : Conn) : SnotiClient :=
  { NewClient config with tlsConn := c, connReader := c.incoming }

/-- A client as code inside the package can build it: `NewClient`, and
`quitSignal` made with one slot. -/
def withQuitSignal (config : Config) : SnotiClient :=
  { NewClient config with quitSignal := some 1 }

/-- An attribute request whose `attrs` map holds a value that cannot be
serialised. -/
def badAttrsReq : AttrsRCtrlReq :=
  { Cmd := "remote_control_req"
    MsgId := "1"
    Items := [{ Cmd := "write_attrs"
                Data := { Did := "d", Mac := "m", ProductKey := "p"
                          Attrs := [("ch", AttrValue.unsupported)] } }] }

/-- An environment: the dial fails or not, every connection is `c`, gabs finds
an `event_push` with delivery id 7 in the text `push` and nothing in any
other text, `json.Marshal` rejects `badAttrsReq`, and no signal arrives. -/
def envOf (dialFails : Bool) (c : Conn) (push : String) : Env :=
  { DialTimeout := fun _ => if dialFails then some (GoError.OpError false false) else none
    conn := fun _ => c
    gabs := fun res path =>
      if res = push then
        (if path = "cmd" then Data.string "event_push"
         else if path = "delivery_id" then Data.float64 7
         else Data.other)
      else Data.other
    Marshal := fun t =>
      if t = T.attrs badAttrsReq then Except.error (GoError.New "json: unsupported type")
      else Except.ok "req"
    MarshalLoginReq := Except.ok "login_req"
    signal := fun _ => false }

/-- The frame of an event push, as it stands on the wire. -/
def pushFrame : String :=
  "\x7b\"cmd\":\"event_push\",\"delivery_id\":7\x7d"

end GizwitsSac

namespace GizwitsSac

/-! ## Lemmas on single methods -/

theorem ReadBytes_frame (atEnd : GoError) (rest : List Char) :
    ∀ frame : List Char, '\n' ∉ frame →
      ReadBytes '\n' atEnd (frame ++ '\n' :: rest) = (frame ++ ['\n'], none, rest) := by
  intro frame
  induction frame with
  | nil => intro _; simp [ReadBytes]
  | cons c cs ih =>
    intro h
    have hc : c ≠ '\n' := fun e => h (by simp [e])
    have hcs : '\n' ∉ cs := fun m => h (by simp [m])
    simp [ReadBytes, hc, ih hcs]

theorem read_frame (s : SnotiClient) (frame rest : List Char)
    (hframe : '\n' ∉ frame) (hbuf : s.connReader = frame ++ '\n' :: rest)
    (hdl : s.tlsConn.SetReadDeadline s.reads = none) :
    read s = ((String.mk frame ++ "\n", none),
              { s with reads := s.reads + 1, connReader := rest }) := by
  have hr := ReadBytes_frame s.tlsConn.streamEnd rest frame hframe
  simp only [read, hdl, hbuf, hr]
  rfl

theorem frame_not_blank (frame : List Char) :
    blankString (String.mk frame ++ "\n") = false := by
  have h : String.mk frame ++ "\n" ≠ "" := by
    intro e
    have hd := congrArg String.data e
    simp at hd
  simp [blankString, h]

theorem isNetErr_nil (s : SnotiClient) : isNetErr s none = (s.isClosed, s) := by
  simp [isNetErr]

theorem isNetErr_fatal (s : SnotiClient) (e : GoError)
    (h : e = GoError.EOF ∨ e = GoError.OpError false false) :
    isNetErr s (some e) = (true, { s with isClosed := true }) := by
  rcases h with rfl | rfl <;> simp [isNetErr]

theorem logErr_room (s : SnotiClient) (err : Option GoError)
    (h : s.errorLogChannel.length < 500) :
    logErr s err = some { s with errorLogChannel := s.errorLogChannel ++ [err] } := by
  simp [logErr, h]

theorem logErr_full (s : SnotiClient) (err : Option GoError)
    (h : ¬ s.errorLogChannel.length < 500) : logErr s err = none := by
  simp [logErr, h]

theorem logInfo_room (s : SnotiClient) (str : String) (h : s.infoLogChannel.length < 500) :
    logInfo s str = some { s with infoLogChannel := s.infoLogChannel ++ [str] } := by
  simp [logInfo, h]

theorem logInfo_full (s : SnotiClient) (str : String)
    (h : ¬ s.infoLogChannel.length < 500) : logInfo s str = none := by
  simp [logInfo, h]

theorem logErr_some (s s1 : SnotiClient) (err : Option GoError) (h : logErr s err = some s1) :
    s.errorLogChannel.length < 500 ∧
    s1 = { s with errorLogChannel := s.errorLogChannel ++ [err] } := by
  unfold logErr at h
  split at h
  · rename_i hlt
    exact ⟨hlt, (Option.some.inj h).symm⟩
  · cases h

theorem logInfo_some (s s1 : SnotiClient) (str : String) (h : logInfo s str = some s1) :
    s.infoLogChannel.length < 500 ∧
    s1 = { s with infoLogChannel := s.infoLogChannel ++ [str] } := by
  unfold logInfo at h
  split at h
  · rename_i hlt
    exact ⟨hlt, (Option.some.inj h).symm⟩
  · cases h

theorem logWarn_some (s s1 : SnotiClient) (str : String) (h : logWarn s str = some s1) :
    s1 = { s with warnLogChannel := s.warnLogChannel ++ [str] } := by
  unfold logWarn at h
  split at h
  · exact (Option.some.inj h).symm
  · cases h

theorem writeChannelSend_some (s s1 : SnotiClient) (data : String)
    (h : writeChannelSend s data = some s1) :
    s1 = { s with writeChannel := s.writeChannel ++ [data] } := by
  unfold writeChannelSend at h
  split at h
  · exact (Option.some.inj h).symm
  · cases h

/-- C8. With the closed flag false, `isNetErr` returns true and sets the flag
exactly for `io.EOF` and for a `*net.OpError` that is neither temporary nor a
timeout; for any other error, `nil` included, it returns false and leaves the
client as it was. -/
theorem isNetErr_classifies (s : SnotiClient) (err : Option GoError)
    (h : s.isClosed = false) :
    ((err = some GoError.EOF ∨ err = some (GoError.OpError false false)) →
        isNetErr s err = (true, { s with isClosed := true })) ∧
    (¬ (err = some GoError.EOF ∨ err = some (GoError.OpError false false)) →
        isNetErr s err = (false, s)) := by
  constructor
  · rintro (rfl | rfl) <;> simp [isNetErr]
  · intro hn
    rcases err with _ | e
    · simp [isNetErr, h]
    · cases e with
      | EOF => exact absurd (Or.inl rfl) hn
      | OpError temporary timeout =>
        cases temporary <;> cases timeout <;> simp_all [isNetErr]
      | New msg => simp [isNetErr, h]
      | Wrap cause msg => simp [isNetErr, h]

theorem isNetErr_classifies_witness :
    (connected ⟨3, none⟩ (connOf [])).isClosed = false ∧
    isNetErr (connected ⟨3, none⟩ (connOf [])) (some GoError.EOF)
      = (true, { connected ⟨3, none⟩ (connOf []) with isClosed := true }) ∧
    isNetErr (connected ⟨3, none⟩ (connOf [])) (some (GoError.OpError false true))
      = (false, connected ⟨3, none⟩ (connOf [])) :=
  ⟨rfl,
   (isNetErr_classifies _ (some GoError.EOF) rfl).1 (Or.inl rfl),
   (isNetErr_classifies _ (some (GoError.OpError false true)) rfl).2 (by decide)⟩

/-- C9, as stated, fails: with the frame `a` and its newline on the transport,
`read` returns the two bytes `a`, newline; the text ends with the delimiter and
is not the bytes that precede it. -/
theorem read_strips_delimiter_counterexample :
    (read (connected ⟨3, none⟩ (connOf ['a', '\n']))).1 = ("a\n", none) ∧
    (read (connected ⟨3, none⟩ (connOf ['a', '\n']))).1.1 ≠ "a" := by
  constructor
  · rfl
  · decide

/-- C9, amended. For every newline-terminated frame on the transport (bytes
`frame` without a newline, then a newline), with the read deadline set, `read`
returns `nil` and the frame text with its delimiter: the bytes that precede the
newline followed by the newline. These bytes are taken off the reader. -/
theorem read_returns_frame_with_delimiter (s : SnotiClient) (frame rest : List Char)
    (hframe : '\n' ∉ frame) (hbuf : s.connReader = frame ++ '\n' :: rest)
    (hdl : s.tlsConn.SetReadDeadline s.reads = none) :
    read s = ((String.mk frame ++ "\n", none),
              { s with reads := s.reads + 1, connReader := rest }) :=
  read_frame s frame rest hframe hbuf hdl

theorem read_returns_frame_with_delimiter_witness :
    read (connected ⟨3, none⟩ (connOf ['o', 'k', '\n', 'x']))
      = ((String.mk ['o', 'k'] ++ "\n", none),
         { connected ⟨3, none⟩ (connOf ['o', 'k', '\n', 'x']) with
             reads := 0 + 1, connReader := ['x'] }) :=
  read_returns_frame_with_delimiter _ ['o', 'k'] ['x'] (by decide) rfl rfl

/-- C5. A value from the producer callback that is neither request struct is
rejected by `handleRemoteCtrlReq` with an error and an empty request string;
when it is not the empty string either, the iteration of `REMOTE_CTRL_LOOP`
that received it sends nothing on the outbound queue and calls `logErr` with
the wrapped error: with a free slot in the error log the error is appended and
the loop goes round again, and with the error log full the goroutine waits on
that send. -/
theorem invalid_shape_is_logged_and_dropped (env : Env) (produce : Nat → T)
    (s : SnotiClient) (t : T)
    (hattrs : ∀ r, t ≠ T.attrs r) (hraw : ∀ r, t ≠ T.raw r) (hblank : t ≠ T.string "")
    (hstop : isStop s = false) (ht : produce s.produced = t) :
    handleRemoteCtrlReq env t = ("", some (GoError.New "Invalid Remote Control Req type")) ∧
    (s.errorLogChannel.length < 500 →
      ∃ s1, loopRemoteCtrlBody env produce s = Step.again s1 ∧
        s1.writeChannel = s.writeChannel ∧
        s1.errorLogChannel = s.errorLogChannel ++
          [some (GoError.Wrap (GoError.New "Invalid Remote Control Req type")
            "[SnotiClient Error] ====> Marshal Remote Control Req data failed")] ∧
        s1.trace = s.trace) ∧
    (¬ s.errorLogChannel.length < 500 →
      loopRemoteCtrlBody env produce s
        = Step.waits { s with produced := s.produced + 1 }) := by
  have hh : handleRemoteCtrlReq env t
      = ("", some (GoError.New "Invalid Remote Control Req type")) := by
    cases t with
    | string x => simp [handleRemoteCtrlReq]
    | attrs r => exact absurd rfl (hattrs r)
    | raw r => exact absurd rfl (hraw r)
    | other d => simp [handleRemoteCtrlReq]
  refine ⟨hh, ?_, ?_⟩
  · intro hroom
    simp [loopRemoteCtrlBody, hstop, ht, hblank, hh, logErr, hroom]
  · intro hfull
    simp [loopRemoteCtrlBody, hstop, ht, hblank, hh, logErr, hfull]

theorem invalid_shape_is_logged_and_dropped_witness :
    handleRemoteCtrlReq (envOf false (connOf []) pushFrame) (T.other "int")
      = ("", some (GoError.New "Invalid Remote Control Req type")) ∧
    ∃ s1, loopRemoteCtrlBody (envOf false (connOf []) pushFrame) (fun _ => T.other "int")
        (connected ⟨3, none⟩ (connOf [])) = Step.again s1 ∧
      s1.writeChannel = (connected ⟨3, none⟩ (connOf [])).writeChannel ∧
      s1.errorLogChannel = (connected ⟨3, none⟩ (connOf [])).errorLogChannel ++
        [some (GoError.Wrap (GoError.New "Invalid Remote Control Req type")
          "[SnotiClient Error] ====> Marshal Remote Control Req data failed")] ∧
      s1.trace = (connected ⟨3, none⟩ (connOf [])).trace :=
  ⟨(invalid_shape_is_logged_and_dropped (envOf false (connOf []) pushFrame)
      (fun _ => T.other "int") (connected ⟨3, none⟩ (connOf [])) (T.other "int")
      (by intro r h; cases h) (by intro r h; cases h) (by intro h; cases h) rfl rfl).1,
   (invalid_shape_is_logged_and_dropped (envOf false (connOf []) pushFrame)
      (fun _ => T.other "int") (connected ⟨3, none⟩ (connOf [])) (T.other "int")
      (by intro r h; cases h) (by intro r h; cases h) (by intro h; cases h) rfl rfl).2.1
      (by decide)⟩

/-- C6 on the code. For a request of a valid shape that `json.Marshal` rejects,
`handleRemoteCtrlReq` returns the empty string and a nil error, and the
iteration of `REMOTE_CTRL_LOOP` that received it sends the empty string on the
outbound queue and logs nothing: with a free slot in the queue the empty
string is enqueued and the loop goes round again, and with the queue full the
goroutine waits on that send. -/
theorem marshal_failure_is_enqueued (env : Env) (produce : Nat → T)
    (s : SnotiClient) (t : T) (e : GoError)
    (hshape : (∃ r, t = T.attrs r) ∨ (∃ r, t = T.raw r))
    (hmarshal : env.Marshal t = Except.error e)
    (hstop : isStop s = false) (ht : produce s.produced = t) :
    handleRemoteCtrlReq env t = ("", none) ∧
    (s.writeChannel.length < s.writeChannelBuffer →
      ∃ s1, loopRemoteCtrlBody env produce s = Step.again s1 ∧
        s1.writeChannel = s.writeChannel ++ [""] ∧
        s1.errorLogChannel = s.errorLogChannel) ∧
    (¬ s.writeChannel.length < s.writeChannelBuffer →
      loopRemoteCtrlBody env produce s
        = Step.waits { s with produced := s.produced + 1 }) := by
  have hh : handleRemoteCtrlReq env t = ("", none) := by
    rcases hshape with ⟨r, rfl⟩ | ⟨r, rfl⟩ <;> simp [handleRemoteCtrlReq, hmarshal]
  have hb : t ≠ T.string "" := by
    rcases hshape with ⟨r, rfl⟩ | ⟨r, rfl⟩ <;> intro h <;> cases h
  refine ⟨hh, ?_, ?_⟩
  · intro hroom
    simp [loopRemoteCtrlBody, hstop, ht, hb, hh, writeChannelSend, hroom]
  · intro hfull
    simp [loopRemoteCtrlBody, hstop, ht, hb, hh, writeChannelSend, hfull]

theorem marshal_failure_is_enqueued_witness :
    handleRemoteCtrlReq (envOf false (connOf []) pushFrame) (T.attrs badAttrsReq)
      = ("", none) ∧
    ∃ s1, loopRemoteCtrlBody (envOf false (connOf []) pushFrame)
        (fun _ => T.attrs badAttrsReq) (connected ⟨3, none⟩ (connOf [])) = Step.again s1 ∧
      s1.writeChannel = (connected ⟨3, none⟩ (connOf [])).writeChannel ++ [""] ∧
      s1.errorLogChannel = (connected ⟨3, none⟩ (connOf [])).errorLogChannel :=
  ⟨(marshal_failure_is_enqueued (envOf false (connOf []) pushFrame)
      (fun _ => T.attrs badAttrsReq) (connected ⟨3, none⟩ (connOf [])) (T.attrs badAttrsReq)
      (GoError.New "json: unsupported type") (Or.inl ⟨badAttrsReq, rfl⟩)
      (by simp [envOf]) rfl rfl).1,
   (marshal_failure_is_enqueued (envOf false (connOf []) pushFrame)
      (fun _ => T.attrs badAttrsReq) (connected ⟨3, none⟩ (connOf [])) (T.attrs badAttrsReq)
      (GoError.New "json: unsupported type") (Or.inl ⟨badAttrsReq, rfl⟩)
      (by simp [envOf]) rfl rfl).2.1 (by decide)⟩

/-- C1 on the code. For a frame in which gabs finds `cmd` equal to
`event_push` and a numeric `delivery_id` d, `handleNotiData` invokes the read
callback and returns d with ok = false; the iteration of `NOTI_READ_LOOP` that
read the frame invokes the callback, writes no frame to the transport, puts
nothing on the outbound queue, and goes round again. -/
theorem event_push_is_not_acknowledged (env : Env) (s : SnotiClient)
    (frame rest : List Char) (d : Int)
    (hcmd : env.gabs (String.mk frame ++ "\n") "cmd" = Data.string "event_push")
    (hid : env.gabs (String.mk frame ++ "\n") "delivery_id" = Data.float64 d)
    (hframe : '\n' ∉ frame) (hbuf : s.connReader = frame ++ '\n' :: rest)
    (hdl : s.tlsConn.SetReadDeadline s.reads = none)
    (hclosed : s.isClosed = false) (hexited : s.isExited = false) :
    (handleNotiData env s (String.mk frame ++ "\n")).1 = (d, false) ∧
    ∃ s1, loopReadBody env s = Step.again s1 ∧
      s1.trace = s.trace ++ [Event.callbackRead (String.mk frame ++ "\n")] ∧
      wire s1 = wire s ∧
      s1.writeChannel = s.writeChannel := by
  have hr := read_frame s frame rest hframe hbuf hdl
  have hb := frame_not_blank frame
  constructor
  · simp [handleNotiData, hcmd, hid]
  · simp [loopReadBody, isStop, hclosed, hexited, hr, hb, handleNotiData, isNetErr_nil, wire]

theorem event_push_is_not_acknowledged_witness :
    (handleNotiData (envOf false (connOf (pushFrame.data ++ ['\n'])) (pushFrame ++ "\n"))
        (connected ⟨3, none⟩ (connOf (pushFrame.data ++ ['\n'])))
        (String.mk pushFrame.data ++ "\n")).1 = (7, false) ∧
    ∃ s1, loopReadBody (envOf false (connOf (pushFrame.data ++ ['\n'])) (pushFrame ++ "\n"))
        (connected ⟨3, none⟩ (connOf (pushFrame.data ++ ['\n']))) = Step.again s1 ∧
      s1.trace = (connected ⟨3, none⟩ (connOf (pushFrame.data ++ ['\n']))).trace ++
        [Event.callbackRead (String.mk pushFrame.data ++ "\n")] ∧
      wire s1 = wire (connected ⟨3, none⟩ (connOf (pushFrame.data ++ ['\n']))) ∧
      s1.writeChannel = (connected ⟨3, none⟩ (connOf (pushFrame.data ++ ['\n']))).writeChannel :=
  event_push_is_not_acknowledged
    (envOf false (connOf (pushFrame.data ++ ['\n'])) (pushFrame ++ "\n"))
    (connected ⟨3, none⟩ (connOf (pushFrame.data ++ ['\n'])))
    pushFrame.data [] 7 (by simp [envOf]) (by simp [envOf]) (by decide) rfl rfl rfl rfl

/-- C2 on the code. On a connection whose deadline calls succeed and whose
reader is at end of stream (`ReadBytes` reports `io.EOF`), with both flags
false, `loopRead` is still running after any number of iterations: each one
only counts a read, the closed flag stays false and nothing is logged. -/
theorem loopRead_spins_at_end_of_stream (env : Env) (fuel : Nat) :
    ∀ s : SnotiClient, s.isClosed = false → s.isExited = false →
      s.connReader = [] → s.tlsConn.streamEnd = GoError.EOF →
      (∀ k, s.tlsConn.SetReadDeadline k = none) →
      loopRead env fuel s none = Run.running { s with reads := s.reads + fuel } := by
  induction fuel with
  | zero => intro s _ _ _ _ _; simp [loopRead]
  | succ n ih =>
    intro s hc he hbuf hend hdl
    have hbody : loopReadBody env s = Step.again { s with reads := s.reads + 1 } := by
      simp [loopReadBody, isStop, hc, he, read, hdl, hbuf, ReadBytes, blankString,
        isNetErr_nil]
    rw [loopRead, hbody]
    simp only []
    rw [ih { s with reads := s.reads + 1 } hc he hbuf hend hdl]
    simp [Nat.add_assoc, Nat.add_comm 1 n]

theorem loopRead_spins_at_end_of_stream_witness :
    loopRead (envOf false (connOf []) pushFrame) 1000 (connected ⟨3, none⟩ (connOf [])) none
      = Run.running { connected ⟨3, none⟩ (connOf []) with
          reads := (connected ⟨3, none⟩ (connOf [])).reads + 1000 } :=
  loopRead_spins_at_end_of_stream (envOf false (connOf []) pushFrame) 1000
    (connected ⟨3, none⟩ (connOf [])) rfl rfl rfl rfl (fun _ => rfl)

/-- C3 on the code. When an iteration of `loopRead` meets a fatal network
error e (here from `SetReadDeadline`), the loop sets the closed flag, calls
`logErr` with e and stops: with a free slot in the error log it returns nil,
and with the error log full it waits on that send and returns nothing. So does
`loop`, whose result is that of `loopRead`: past a dial and a login that
succeed, it returns nil after e was logged, and whenever it returns at all the
value is nil, the closed flag is set and e is in the error log. -/
theorem fatal_read_error_is_not_returned (env : Env) (e : GoError) (fuel : Nat)
    (hfatal : e = GoError.EOF ∨ e = GoError.OpError false false) :
    (∀ s : SnotiClient, s.isClosed = false → s.isExited = false →
        s.tlsConn.SetReadDeadline s.reads = some e →
        (s.errorLogChannel.length < 500 →
          loopRead env (fuel + 1) s none
            = Run.returned none
                { s with reads := s.reads + 1, isClosed := true,
                         errorLogChannel := s.errorLogChannel ++ [some e] }) ∧
        (¬ s.errorLogChannel.length < 500 →
          loopRead env (fuel + 1) s none
            = Run.blocked { s with reads := s.reads + 1, isClosed := true })) ∧
    (∀ (s : SnotiClient) (bytes : String), s.isClosed = false → s.isExited = false →
        env.DialTimeout s.dials = none → env.MarshalLoginReq = Except.ok bytes →
        (env.conn s.dials).SetWriteDeadline 0 = none →
        (env.conn s.dials).Write 0 = none →
        (env.conn s.dials).SetReadDeadline 0 = some e →
        s.errorLogChannel.length < 500 → s.infoLogChannel.length < 500 →
        ∃ s1, loop env (fuel + 1) s = Run.returned none s1 ∧ s1.isClosed = true ∧
          s1.errorLogChannel = s.errorLogChannel ++ [some e]) ∧
    (∀ (s : SnotiClient) (bytes : String), s.isClosed = false → s.isExited = false →
        env.DialTimeout s.dials = none → env.MarshalLoginReq = Except.ok bytes →
        (env.conn s.dials).SetWriteDeadline 0 = none →
        (env.conn s.dials).Write 0 = none →
        (env.conn s.dials).SetReadDeadline 0 = some e →
        ∀ r s1, loop env (fuel + 1) s = Run.returned r s1 →
          r = none ∧ s1.isClosed = true ∧
          s1.errorLogChannel = s.errorLogChannel ++ [some e]) := by
  have hbody : ∀ s : SnotiClient, s.isClosed = false → s.isExited = false →
      s.tlsConn.SetReadDeadline s.reads = some e →
      loopReadBody env s
        = match logErr { s with reads := s.reads + 1, isClosed := true } (some e) with
          | some s2 => Step.broke s2
          | none => Step.waits { s with reads := s.reads + 1, isClosed := true } := by
    intro s hc he hdl
    simp [loopReadBody, isStop, hc, he, read, hdl, blankString, isNetErr_fatal _ e hfatal]
  have hroom : ∀ s : SnotiClient, s.isClosed = false → s.isExited = false →
      s.tlsConn.SetReadDeadline s.reads = some e → s.errorLogChannel.length < 500 →
      loopRead env (fuel + 1) s none
        = Run.returned none
            { s with reads := s.reads + 1, isClosed := true,
                     errorLogChannel := s.errorLogChannel ++ [some e] } := by
    intro s hc he hdl hlen
    rw [loopRead, hbody s hc he hdl,
      logErr_room { s with reads := s.reads + 1, isClosed := true } (some e) hlen]
  have hfull : ∀ s : SnotiClient, s.isClosed = false → s.isExited = false →
      s.tlsConn.SetReadDeadline s.reads = some e → ¬ s.errorLogChannel.length < 500 →
      loopRead env (fuel + 1) s none
        = Run.blocked { s with reads := s.reads + 1, isClosed := true } := by
    intro s hc he hdl hlen
    rw [loopRead, hbody s hc he hdl,
      logErr_full { s with reads := s.reads + 1, isClosed := true } (some e) hlen]
  have hany : ∀ (s : SnotiClient) (r : Option GoError) (s1 : SnotiClient),
      loopRead env (fuel + 1) s none = Run.returned r s1 →
      s.isClosed = false → s.isExited = false →
      s.tlsConn.SetReadDeadline s.reads = some e →
        r = none ∧ s1.isClosed = true ∧
        s1.errorLogChannel = s.errorLogChannel ++ [some e] := by
    intro s r s1 hret hc he hdl
    by_cases hlen : s.errorLogChannel.length < 500
    · rw [hroom s hc he hdl hlen] at hret
      cases hret
      exact ⟨rfl, rfl, rfl⟩
    · rw [hfull s hc he hdl hlen] at hret
      cases hret
  refine ⟨?_, ?_, ?_⟩
  · intro s hc he hdl
    exact ⟨hroom s hc he hdl, hfull s hc he hdl⟩
  rotate_left
  · intro s bytes hc he hdial hlogin hwd hw hrd r s1
    simp only [loop, hdial, login, hlogin, write, hwd, hw]
    simp only [if_true]
    cases hcfg : s.config.Write with
    | none =>
      simp only [loopRemoteCtrl, hcfg]
      by_cases hinfo : s.infoLogChannel.length < 500
      · rw [logInfo_room _ _ (by simpa using hinfo)]
        simp only []
        intro hret
        have h := hany _ r s1 hret
        exact h (by simpa using hc) (by simpa using he) (by simpa using hrd)
      · rw [logInfo_full _ _ (by simpa using hinfo)]
        intro hret
        cases hret
    | some f =>
      simp only [loopRemoteCtrl, hcfg]
      intro hret
      have h := hany _ r s1 hret
      exact h (by simpa using hc) (by simpa using he) (by simpa using hrd)
  · intro s bytes hc he hdial hlogin hwd hw hrd hlen hinfo
    simp only [loop, hdial, login, hlogin, write, hwd, hw]
    simp only [if_true]
    cases hcfg : s.config.Write with
    | none =>
      simp only [loopRemoteCtrl, hcfg]
      rw [logInfo_room _ _ (by simpa using hinfo)]
      simp only []
      exact ⟨_, hroom _ (by simpa using hc) (by simpa using he) (by simpa using hrd)
        (by simpa using hlen), rfl, rfl⟩
    | some f =>
      simp only [loopRemoteCtrl, hcfg]
      exact ⟨_, hroom _ (by simpa using hc) (by simpa using he) (by simpa using hrd)
        (by simpa using hlen), rfl, rfl⟩

theorem fatal_read_error_is_not_returned_witness :
    loopRead (envOf false readDeadConn pushFrame) (0 + 1) (connected ⟨3, none⟩ readDeadConn) none
      = Run.returned none
          { connected ⟨3, none⟩ readDeadConn with
              reads := (connected ⟨3, none⟩ readDeadConn).reads + 1, isClosed := true,
              errorLogChannel := (connected ⟨3, none⟩ readDeadConn).errorLogChannel ++
                [some (GoError.OpError false false)] } ∧
    ∃ s1, loop (envOf false readDeadConn pushFrame) (0 + 1) (NewClient ⟨3, none⟩)
        = Run.returned none s1 ∧ s1.isClosed = true ∧
      s1.errorLogChannel = (NewClient ⟨3, none⟩).errorLogChannel ++
        [some (GoError.OpError false false)] :=
  ⟨((fatal_read_error_is_not_returned (envOf false readDeadConn pushFrame)
      (GoError.OpError false false) 0 (Or.inr rfl)).1
      (connected ⟨3, none⟩ readDeadConn) rfl rfl rfl).1 (by decide),
   (fatal_read_error_is_not_returned (envOf false readDeadConn pushFrame)
      (GoError.OpError false false) 0 (Or.inr rfl)).2.1
      (NewClient ⟨3, none⟩) "login_req" rfl rfl rfl rfl rfl rfl rfl (by decide) (by decide)⟩

theorem loopWrite_drains :
    ∀ (msgs : List String) (fuel : Nat) (s : SnotiClient),
      s.isClosed = false → s.writeChannel = msgs →
      (∀ k, s.tlsConn.SetWriteDeadline k = none) → (∀ k, s.tlsConn.Write k = none) →
      msgs.length < fuel →
      loopWrite fuel s
        = Run.blocked { s with
            writeChannel := []
            writes := s.writes + msgs.length
            trace := s.trace ++ msgs.map fun m => Event.connWrite (m ++ "\n") none } := by
  intro msgs
  induction msgs with
  | nil =>
    intro fuel s hc hq _ _ hfuel
    obtain ⟨f, rfl⟩ : ∃ f, fuel = f + 1 := ⟨fuel - 1, by simp at hfuel; omega⟩
    simp [loopWrite, hc, hq]
    cases s
    simp_all
  | cons m ms ih =>
    intro fuel s hc hq hwd hw hfuel
    obtain ⟨f, rfl⟩ : ∃ f, fuel = f + 1 := ⟨fuel - 1, by simp at hfuel; omega⟩
    have hlen : ms.length < f := by simp at hfuel; omega
    have h := ih f
      { s with writeChannel := ms, writes := s.writes + 1,
               trace := s.trace ++ [Event.connWrite (m ++ "\n") none] }
      hc rfl hwd hw hlen
    simp only [loopWrite, hc, hq, write, hwd, hw]
    simp only [isNetErr_nil, Bool.not_false, if_true, Bool.false_eq_true, if_false]
    simp only [hc] at h
    rw [h]
    simp [Nat.add_assoc, Nat.add_comm 1]

/-- C7. With the session open, the deadline and write calls all succeeding,
and the outbound queue holding m1..mn in enqueue order, `loopWrite` hands to
the transport m1 and a newline, then m2 and a newline, up to mn, one write per
message and nothing else, and then waits on the empty queue. -/
theorem loopWrite_sends_in_order :
    ∀ (msgs : List String) (fuel : Nat) (s : SnotiClient),
      s.isClosed = false → s.writeChannel = msgs →
      (∀ k, s.tlsConn.SetWriteDeadline k = none) → (∀ k, s.tlsConn.Write k = none) →
      msgs.length < fuel →
      loopWrite fuel s
        = Run.blocked { s with
            writeChannel := []
            writes := s.writes + msgs.length
            trace := s.trace ++ msgs.map fun m => Event.connWrite (m ++ "\n") none } ∧
      wire (Run.state (loopWrite fuel s)) = wire s ++ msgs.map fun m => m ++ "\n" := by
  intro msgs fuel s hc hq hwd hw hfuel
  have h := loopWrite_drains msgs fuel s hc hq hwd hw hfuel
  refine ⟨h, ?_⟩
  rw [h]
  simp only [Run.state, wire, List.filterMap_append, List.filterMap_map, Function.comp_def]
  congr 1
  exact congrFun (List.filterMap_eq_map (fun m : String => m ++ "\n")) msgs

theorem loopWrite_sends_in_order_witness :
    loopWrite 5 { connected ⟨3, none⟩ (connOf []) with writeChannel := ["ping", "ack", "req"] }
        = Run.blocked { connected ⟨3, none⟩ (connOf []) with
            writeChannel := []
            writes := 0 + ["ping", "ack", "req"].length
            trace := [] ++ ["ping", "ack", "req"].map fun m => Event.connWrite (m ++ "\n") none } ∧
    wire (Run.state (loopWrite 5
        { connected ⟨3, none⟩ (connOf []) with writeChannel := ["ping", "ack", "req"] }))
      = wire { connected ⟨3, none⟩ (connOf []) with writeChannel := ["ping", "ack", "req"] }
          ++ ["ping", "ack", "req"].map fun m => m ++ "\n" :=
  loopWrite_sends_in_order ["ping", "ack", "req"] 5
    { connected ⟨3, none⟩ (connOf []) with writeChannel := ["ping", "ack", "req"] }
    rfl rfl (fun _ => rfl) (fun _ => rfl) (by decide)

/-! ## What the methods leave unchanged -/

theorem withinCycle_refl (s : SnotiClient) : withinCycle s s :=
  ⟨rfl, id, rfl⟩

theorem withinCycle_trans {a b c : SnotiClient} (h1 : withinCycle a b) (h2 : withinCycle b c) :
    withinCycle a c :=
  ⟨h2.1.trans h1.1, fun h => h2.2.1 (h1.2.1 h), h2.2.2.trans h1.2.2⟩

theorem withinCycle_flagsKept {a b : SnotiClient} (h : withinCycle a b) : flagsKept a b :=
  ⟨h.2.1, fun he => by rw [h.1]; exact he⟩

theorem flagsKept_trans {a b c : SnotiClient} (h1 : flagsKept a b) (h2 : flagsKept b c) :
    flagsKept a c :=
  ⟨fun h => h2.1 (h1.1 h), fun h => h2.2 (h1.2 h)⟩

theorem sameLogs_refl (s : SnotiClient) : sameLogs s s :=
  ⟨rfl, rfl⟩

theorem sameLogs_trans {a b c : SnotiClient} (h1 : sameLogs a b) (h2 : sameLogs b c) :
    sameLogs a c :=
  ⟨h2.1.trans h1.1, h2.2.trans h1.2⟩

theorem logInfo_withinCycle (s s1 : SnotiClient) (str : String) (h : logInfo s str = some s1) :
    withinCycle s s1 := by
  rw [(logInfo_some s s1 str h).2]
  exact ⟨rfl, id, rfl⟩

theorem logErr_withinCycle (s s1 : SnotiClient) (err : Option GoError)
    (h : logErr s err = some s1) : withinCycle s s1 := by
  rw [(logErr_some s s1 err h).2]
  exact ⟨rfl, id, rfl⟩

theorem logWarn_withinCycle (s s1 : SnotiClient) (str : String) (h : logWarn s str = some s1) :
    withinCycle s s1 := by
  rw [logWarn_some s s1 str h]
  exact ⟨rfl, id, rfl⟩

theorem writeChannelSend_withinCycle (s s1 : SnotiClient) (data : String)
    (h : writeChannelSend s data = some s1) : withinCycle s s1 := by
  rw [writeChannelSend_some s s1 data h]
  exact ⟨rfl, id, rfl⟩

theorem logInfoAndEnd_withinCycle (s : SnotiClient) (line : String) :
    withinCycle s (Run.state (logInfoAndEnd s line)) := by
  unfold logInfoAndEnd
  split
  · rename_i s1 h
    exact logInfo_withinCycle s s1 line h
  · exact withinCycle_refl s

theorem logInfoAndEnd_not_running (s s1 : SnotiClient) (line : String) :
    logInfoAndEnd s line ≠ Run.running s1 := by
  unfold logInfoAndEnd
  split <;> intro h <;> cases h

theorem logInfoAndEnd_delivered (s : SnotiClient) (line : String) :
    delivered (Run.state (logInfoAndEnd s line)) = delivered s := by
  unfold logInfoAndEnd
  split
  · rename_i s1 h
    rw [(logInfo_some s s1 line h).2]
    rfl
  · rfl

theorem read_withinCycle (s : SnotiClient) : withinCycle s (read s).2 := by
  unfold read
  simp only []
  split <;> exact ⟨rfl, id, rfl⟩

theorem read_sameLogs (s : SnotiClient) : sameLogs s (read s).2 := by
  unfold read
  simp only []
  split <;> exact ⟨rfl, rfl⟩

theorem write_withinCycle (s : SnotiClient) (data : String) : withinCycle s (write s data).2 := by
  unfold write
  simp only []
  split
  · exact ⟨rfl, id, by simp [cycles, List.count_append]⟩
  · exact ⟨rfl, id, rfl⟩

theorem write_sameLogs (s : SnotiClient) (data : String) : sameLogs s (write s data).2 := by
  unfold write
  simp only []
  split <;> exact ⟨rfl, rfl⟩

theorem write_delivered (s : SnotiClient) (data : String) :
    delivered (write s data).2 = delivered s := by
  unfold write
  simp only []
  split
  · simp [delivered, List.filterMap_append]
  · rfl

theorem isNetErr_withinCycle (s : SnotiClient) (err : Option GoError) :
    withinCycle s (isNetErr s err).2 := by
  unfold isNetErr
  simp only []
  refine ⟨?_, ?_, ?_⟩
  · split <;> split <;> (try split) <;> rfl
  · intro h
    split <;> split <;> (try split) <;> simp_all
  · split <;> split <;> (try split) <;> rfl

theorem isNetErr_sameLogs (s : SnotiClient) (err : Option GoError) :
    sameLogs s (isNetErr s err).2 := by
  unfold isNetErr
  simp only []
  constructor <;> split <;> split <;> (try split) <;> rfl

theorem isNetErr_closed (s : SnotiClient) (err : Option GoError) (h : s.isClosed = true) :
    isNetErr s err = (true, s) := by
  have hs : { s with isClosed := true } = s := by cases s; simp_all
  unfold isNetErr
  simp only [hs, ite_self]
  split
  · simp [hs, h]
  · simp [h]

theorem handleNotiData_withinCycle (env : Env) (s : SnotiClient) (res : String) :
    withinCycle s (handleNotiData env s res).2 :=
  ⟨rfl, id, by simp [handleNotiData, cycles, List.count_append]⟩

theorem handleNotiData_sameLogs (env : Env) (s : SnotiClient) (res : String) :
    sameLogs s (handleNotiData env s res).2 :=
  ⟨rfl, rfl⟩

theorem handleNotiData_ok (env : Env) (s : SnotiClient) (res : String) :
    (handleNotiData env s res).1.2 = false :=
  rfl

theorem eventAck_withinCycle (s : SnotiClient) (deliveryId : Int) :
    withinCycle s (eventAck s deliveryId).2 :=
  write_withinCycle s _

theorem login_withinCycle (env : Env) (s : SnotiClient) : withinCycle s (login env s).2 := by
  unfold login
  split
  · exact withinCycle_refl s
  · exact write_withinCycle s _

theorem login_sameLogs (env : Env) (s : SnotiClient) : sameLogs s (login env s).2 := by
  unfold login
  split
  · exact sameLogs_refl s
  · exact write_sameLogs s _

theorem login_delivered (env : Env) (s : SnotiClient) :
    delivered (login env s).2 = delivered s := by
  unfold login
  split
  · rfl
  · exact write_delivered s _

theorem loopRemoteCtrl_withinCycle (s s1 : SnotiClient) (h : loopRemoteCtrl s = some s1) :
    withinCycle s s1 := by
  unfold loopRemoteCtrl at h
  split at h
  · exact logInfo_withinCycle s s1 _ h
  · rw [← Option.some.inj h]
    exact withinCycle_refl s

theorem loopRemoteCtrl_delivered (s s1 : SnotiClient) (h : loopRemoteCtrl s = some s1) :
    delivered s1 = delivered s := by
  unfold loopRemoteCtrl at h
  split at h
  · rw [(logInfo_some s s1 _ h).2]
    rfl
  · rw [← Option.some.inj h]

theorem loopRemoteCtrl_logs (s s1 : SnotiClient) (h : loopRemoteCtrl s = some s1) :
    s1.errorLogChannel = s.errorLogChannel ∧
    s1.infoLogChannel.length ≤ s.infoLogChannel.length + 1 := by
  unfold loopRemoteCtrl at h
  split at h
  · rw [(logInfo_some s s1 _ h).2]
    simp
  · rw [← Option.some.inj h]
    simp

theorem loopRemoteCtrl_room (s : SnotiClient) (h : s.infoLogChannel.length < 500) :
    ∃ s1, loopRemoteCtrl s = some s1 := by
  unfold loopRemoteCtrl
  split
  · exact ⟨_, logInfo_room s _ h⟩
  · exact ⟨s, rfl⟩

/-! ## What the loops leave unchanged -/

theorem loopRead_tail_withinCycle (s : SnotiClient) (q : Option GoError × SnotiClient)
    (h : withinCycle s q.2) :
    withinCycle s (Step.state
      (if (isNetErr q.2 q.1).1 = true then
        (match logErr (isNetErr q.2 q.1).2 q.1 with
         | some s2 => Step.broke s2
         | none => Step.waits (isNetErr q.2 q.1).2)
      else Step.again (isNetErr q.2 q.1).2)) := by
  have h3 := withinCycle_trans h (isNetErr_withinCycle q.2 q.1)
  split
  · split
    · rename_i s2 hs2
      exact withinCycle_trans h3 (logErr_withinCycle _ s2 _ hs2)
    · exact h3
  · exact h3

theorem loopRead_tail_logs (s : SnotiClient) (q : Option GoError × SnotiClient)
    (h : sameLogs s q.2) (r : Step)
    (hr : r = (if (isNetErr q.2 q.1).1 = true then
        (match logErr (isNetErr q.2 q.1).2 q.1 with
         | some s2 => Step.broke s2
         | none => Step.waits (isNetErr q.2 q.1).2)
      else Step.again (isNetErr q.2 q.1).2)) :
    (∀ s1, r = Step.again s1 → sameLogs s s1) ∧
    (∀ s1, r = Step.waits s1 → sameLogs s s1) ∧
    (∀ s1, r = Step.broke s1 → s1.infoLogChannel = s.infoLogChannel ∧
      s1.errorLogChannel.length ≤ s.errorLogChannel.length + 1) := by
  have h3 := sameLogs_trans h (isNetErr_sameLogs q.2 q.1)
  subst hr
  split
  · split
    · rename_i s2 hs2
      have hs := (logErr_some _ s2 _ hs2).2
      refine ⟨?_, ?_, ?_⟩
      · intro s1 e
        cases e
      · intro s1 e
        cases e
      · intro s1 e
        cases e
        rw [hs]
        exact ⟨h3.2, by simp [h3.1]⟩
    · refine ⟨?_, ?_, ?_⟩
      · intro s1 e
        cases e
      · intro s1 e
        cases e
        exact h3
      · intro s1 e
        cases e
  · refine ⟨?_, ?_, ?_⟩
    · intro s1 e
      cases e
      exact h3
    · intro s1 e
      cases e
    · intro s1 e
      cases e

theorem loopReadBody_withinCycle (env : Env) (s : SnotiClient) :
    withinCycle s (Step.state (loopReadBody env s)) := by
  unfold loopReadBody
  by_cases hstop : isStop s = true
  · simp [hstop, Step.state, withinCycle_refl]
  · simp only [hstop, Bool.not_eq_true, Bool.not_false, if_true, handleNotiData_ok,
      Bool.false_eq_true, if_false]
    have h1 := read_withinCycle s
    by_cases hblank : (!blankString (read s).1.1) = true
    · simp only [hblank, if_true]
      exact loopRead_tail_withinCycle s
        ((read s).1.2, (handleNotiData env (read s).2 (read s).1.1).2)
        (withinCycle_trans h1 (handleNotiData_withinCycle env _ _))
    · simp only [hblank, if_false]
      exact loopRead_tail_withinCycle s ((read s).1.2, (read s).2) h1

theorem loopReadBody_logs (env : Env) (s : SnotiClient) :
    (∀ s1, loopReadBody env s = Step.again s1 → sameLogs s s1) ∧
    (∀ s1, loopReadBody env s = Step.waits s1 → sameLogs s s1) ∧
    (∀ s1, loopReadBody env s = Step.broke s1 → s1.infoLogChannel = s.infoLogChannel ∧
      s1.errorLogChannel.length ≤ s.errorLogChannel.length + 1) := by
  by_cases hstop : isStop s = true
  · have hb : loopReadBody env s = Step.broke s := by simp [loopReadBody, hstop]
    rw [hb]
    refine ⟨?_, ?_, ?_⟩
    · intro s1 e
      cases e
    · intro s1 e
      cases e
    · intro s1 e
      cases e
      exact ⟨rfl, Nat.le_succ _⟩
  · have h1 := read_sameLogs s
    by_cases hblank : (!blankString (read s).1.1) = true
    · exact loopRead_tail_logs s
        ((read s).1.2, (handleNotiData env (read s).2 (read s).1.1).2)
        (sameLogs_trans h1 (handleNotiData_sameLogs env _ _)) _
        (by
          unfold loopReadBody
          simp only [hstop, Bool.not_eq_true, Bool.not_false, if_true, handleNotiData_ok,
            Bool.false_eq_true, if_false, hblank])
    · exact loopRead_tail_logs s ((read s).1.2, (read s).2) h1 _
        (by
          unfold loopReadBody
          simp only [hstop, Bool.not_eq_true, Bool.not_false, if_true, handleNotiData_ok,
            Bool.false_eq_true, if_false, hblank])

theorem loopRead_withinCycle (env : Env) (err : Option GoError) :
    ∀ (fuel : Nat) (s : SnotiClient), withinCycle s (Run.state (loopRead env fuel s err)) := by
  intro fuel
  induction fuel with
  | zero => intro s; exact withinCycle_refl s
  | succ n ih =>
    intro s
    have hb := loopReadBody_withinCycle env s
    rw [loopRead]
    cases hbody : loopReadBody env s with
    | again s1 =>
      rw [hbody] at hb
      exact withinCycle_trans hb (ih s1)
    | broke s1 =>
      rw [hbody] at hb
      exact hb
    | waits s1 =>
      rw [hbody] at hb
      exact hb

theorem loopRead_logs (env : Env) (err : Option GoError) :
    ∀ (fuel : Nat) (s : SnotiClient),
      (Run.state (loopRead env fuel s err)).infoLogChannel = s.infoLogChannel ∧
      (Run.state (loopRead env fuel s err)).errorLogChannel.length
        ≤ s.errorLogChannel.length + 1 := by
  intro fuel
  induction fuel with
  | zero => intro s; exact ⟨rfl, Nat.le_succ _⟩
  | succ n ih =>
    intro s
    have hb := loopReadBody_logs env s
    rw [loopRead]
    cases hbody : loopReadBody env s with
    | again s1 =>
      have h1 := hb.1 s1 hbody
      have h2 := ih s1
      simp only []
      rw [h1.1, h1.2] at h2
      exact h2
    | broke s1 => exact hb.2.2 s1 hbody
    | waits s1 =>
      have h1 := hb.2.1 s1 hbody
      exact ⟨h1.2, by simp [Run.state, h1.1]⟩

theorem loopRead_closed (env : Env) (fuel : Nat) (s : SnotiClient) (err : Option GoError)
    (h : s.isClosed = true) : loopRead env (fuel + 1) s err = Run.returned err s := by
  have hb : loopReadBody env s = Step.broke s := by simp [loopReadBody, isStop, h]
  rw [loopRead, hb]

theorem loopWrite_withinCycle :
    ∀ (fuel : Nat) (s : SnotiClient), withinCycle s (Run.state (loopWrite fuel s)) := by
  intro fuel
  induction fuel with
  | zero => intro s; exact withinCycle_refl s
  | succ n ih =>
    intro s
    rw [loopWrite]
    split
    · split
      · exact withinCycle_refl s
      · rename_i msg rest _
        have hw : withinCycle s (write { s with writeChannel := rest } msg).2 :=
          withinCycle_trans (b := { s with writeChannel := rest }) ⟨rfl, id, rfl⟩
            (write_withinCycle _ _)
        have hn := withinCycle_trans hw (isNetErr_withinCycle _
          (write { s with writeChannel := rest } msg).1)
        simp only []
        split
        · split
          · rename_i s1 hs1
            exact withinCycle_trans hn
              (withinCycle_trans (logErr_withinCycle _ s1 _ hs1)
                (logInfoAndEnd_withinCycle _ _))
          · exact hn
        · exact withinCycle_trans hn (ih _)
    · exact logInfoAndEnd_withinCycle s _

theorem heartbeat_withinCycle :
    ∀ (fuel : Nat) (s : SnotiClient), withinCycle s (Run.state (heartbeat fuel s)) := by
  intro fuel
  induction fuel with
  | zero => intro s; exact withinCycle_refl s
  | succ n ih =>
    intro s
    rw [heartbeat]
    split
    · split
      · rename_i s1 hs1
        exact withinCycle_trans (writeChannelSend_withinCycle s s1 _ hs1) (ih s1)
      · exact withinCycle_refl s
    · exact logInfoAndEnd_withinCycle s _

theorem loopRemoteCtrlBody_withinCycle (env : Env) (produce : Nat → T) (s : SnotiClient) :
    withinCycle s (Step.state (loopRemoteCtrlBody env produce s)) := by
  have h1 : withinCycle s { s with produced := s.produced + 1 } := ⟨rfl, id, rfl⟩
  unfold loopRemoteCtrlBody
  simp only []
  split
  · split
    · exact h1
    · split
      · split
        · rename_i s2 hs2
          exact withinCycle_trans h1 (writeChannelSend_withinCycle _ s2 _ hs2)
        · exact h1
      · split
        · rename_i s2 hs2
          exact withinCycle_trans h1 (logErr_withinCycle _ s2 _ hs2)
        · exact h1
  · exact withinCycle_refl s

theorem loopRemoteCtrlGo_withinCycle (env : Env) (produce : Nat → T) :
    ∀ (fuel : Nat) (s : SnotiClient),
      withinCycle s (Run.state (loopRemoteCtrlGo env produce fuel s)) := by
  intro fuel
  induction fuel with
  | zero => intro s; exact withinCycle_refl s
  | succ n ih =>
    intro s
    have hb := loopRemoteCtrlBody_withinCycle env produce s
    rw [loopRemoteCtrlGo]
    cases hbody : loopRemoteCtrlBody env produce s with
    | again s1 =>
      rw [hbody] at hb
      exact withinCycle_trans hb (ih s1)
    | broke s1 =>
      rw [hbody] at hb
      exact withinCycle_trans hb (logInfoAndEnd_withinCycle _ _)
    | waits s1 =>
      rw [hbody] at hb
      exact hb

/-! ## Connection cycles -/

theorem loop_state (env : Env) (fuel : Nat) (s : SnotiClient) :
    (Run.state (loop env fuel s)).isExited = s.isExited ∧
    (s.isClosed = true → (Run.state (loop env fuel s)).isClosed = true) ∧
    cycles (Run.state (loop env fuel s)) = cycles s + 1 := by
  have hd : withinCycle { s with dials := s.dials + 1, trace := s.trace ++ [Event.dial] }
      (Run.state (loop env fuel s)) := by
    have hl : withinCycle { s with dials := s.dials + 1, trace := s.trace ++ [Event.dial] }
        (login env { s with
          dials := s.dials + 1, trace := s.trace ++ [Event.dial],
          tlsConn := env.conn s.dials, connReader := (env.conn s.dials).incoming,
          reads := 0, writes := 0 }).2 :=
      withinCycle_trans (b := { s with
          dials := s.dials + 1, trace := s.trace ++ [Event.dial],
          tlsConn := env.conn s.dials, connReader := (env.conn s.dials).incoming,
          reads := 0, writes := 0 }) ⟨rfl, id, rfl⟩ (login_withinCycle env _)
    unfold loop
    simp only []
    split
    · exact withinCycle_refl _
    · split
      · exact hl
      · split
        · rename_i s3 hs3
          exact withinCycle_trans hl
            (withinCycle_trans (loopRemoteCtrl_withinCycle _ s3 hs3)
              (loopRead_withinCycle env none fuel s3))
        · exact hl
  refine ⟨hd.1, hd.2.1, ?_⟩
  rw [hd.2.2]
  simp [cycles, List.count_append]

theorem loop_logs (env : Env) (fuel : Nat) (s : SnotiClient) :
    (Run.state (loop env fuel s)).errorLogChannel.length ≤ s.errorLogChannel.length + 1 ∧
    (Run.state (loop env fuel s)).infoLogChannel.length ≤ s.infoLogChannel.length + 1 := by
  have hl : sameLogs s
      (login env { s with
        dials := s.dials + 1, trace := s.trace ++ [Event.dial],
        tlsConn := env.conn s.dials, connReader := (env.conn s.dials).incoming,
        reads := 0, writes := 0 }).2 :=
    sameLogs_trans (b := { s with
        dials := s.dials + 1, trace := s.trace ++ [Event.dial],
        tlsConn := env.conn s.dials, connReader := (env.conn s.dials).incoming,
        reads := 0, writes := 0 }) ⟨rfl, rfl⟩ (login_sameLogs env _)
  unfold loop
  simp only []
  split
  · exact ⟨Nat.le_succ _, Nat.le_succ _⟩
  · split
    · simp only [Run.state]
      rw [hl.1, hl.2]
      exact ⟨Nat.le_succ _, Nat.le_succ _⟩
    · split
      · rename_i s3 hs3
        have h3 := loopRemoteCtrl_logs _ s3 hs3
        have h4 := loopRead_logs env none fuel s3
        rw [hl.1] at h3
        rw [hl.2] at h3
        refine ⟨?_, ?_⟩
        · rw [← h3.1]
          exact h4.2
        · rw [h4.1]
          exact h3.2
      · simp only [Run.state]
        rw [hl.1, hl.2]
        exact ⟨Nat.le_succ _, Nat.le_succ _⟩

theorem loop_closed (env : Env) (fuel : Nat) (s : SnotiClient) (h : s.isClosed = true) :
    (∃ e s1, loop env (fuel + 1) s = Run.returned e s1 ∧ s1.isClosed = true ∧
      delivered s1 = delivered s) ∨
    (∃ s1, loop env (fuel + 1) s = Run.blocked s1 ∧ s1.isClosed = true ∧
      delivered s1 = delivered s) := by
  have hdial : delivered { s with
        dials := s.dials + 1, trace := s.trace ++ [Event.dial],
        tlsConn := env.conn s.dials, connReader := (env.conn s.dials).incoming,
        reads := 0, writes := 0 } = delivered s := by
    simp [delivered, List.filterMap_append]
  unfold loop
  simp only []
  split
  · exact Or.inl ⟨_, _, rfl, h, by simp [delivered, List.filterMap_append]⟩
  · split
    · refine Or.inl ⟨_, _, rfl, (login_withinCycle env _).2.1 h, ?_⟩
      rw [login_delivered, hdial]
    · split
      · rename_i s3 hs3
        have hc : s3.isClosed = true :=
          (loopRemoteCtrl_withinCycle _ s3 hs3).2.1 ((login_withinCycle env _).2.1 h)
        rw [loopRead_closed env fuel s3 none hc]
        refine Or.inl ⟨_, _, rfl, hc, ?_⟩
        rw [loopRemoteCtrl_delivered _ s3 hs3, login_delivered, hdial]
      · refine Or.inr ⟨_, rfl, (login_withinCycle env _).2.1 h, ?_⟩
        rw [login_delivered, hdial]

theorem StartLoop_done (env : Env) (fuel : Nat) (retry i : Int) (s : SnotiClient)
    (h : ¬ i < retry) : StartLoop env fuel retry i s = Run.returned () s := by
  rw [StartLoop]
  simp [h]

theorem StartLoop_step (env : Env) (fuel : Nat) (retry i : Int) (s : SnotiClient)
    (h : i < retry) :
    StartLoop env fuel retry i s
      = if (!(s.isExited || env.signal i.toNat)) = true then
          (match loop env fuel { s with isExited := s.isExited || env.signal i.toNat } with
           | Run.returned err s1 =>
             (match logErr s1 err with
              | some s2 => StartLoop env fuel retry (i + 1) s2
              | none => Run.blocked s1)
           | Run.running s1 => Run.running s1
           | Run.blocked s1 => Run.blocked s1
           | Run.panicked s1 => Run.panicked s1)
        else StartLoop env fuel retry (i + 1)
          { s with isExited := s.isExited || env.signal i.toNat } := by
  rw [StartLoop]
  simp only [h, dite_true]

theorem StartLoop_flagsKept (env : Env) (fuel : Nat) (retry : Int) :
    ∀ (n : Nat) (i : Int) (s : SnotiClient), (retry - i).toNat = n →
      flagsKept s (Run.state (StartLoop env fuel retry i s)) := by
  intro n
  induction n with
  | zero =>
    intro i s hn
    rw [StartLoop_done env fuel retry i s (by omega)]
    exact ⟨id, id⟩
  | succ n ih =>
    intro i s hn
    have h0 : flagsKept s { s with isExited := s.isExited || env.signal i.toNat } :=
      ⟨id, fun h => by simp [h]⟩
    rw [StartLoop_step env fuel retry i s (by omega)]
    split
    · have hst := loop_state env fuel { s with isExited := s.isExited || env.signal i.toNat }
      have hl : flagsKept { s with isExited := s.isExited || env.signal i.toNat }
          (Run.state (loop env fuel { s with isExited := s.isExited || env.signal i.toNat })) :=
        ⟨hst.2.1, fun h => by rw [hst.1]; exact h⟩
      split
      · rename_i err s1 heq
        rw [heq] at hl
        split
        · rename_i s2 hs2
          exact flagsKept_trans h0 (flagsKept_trans hl
            (flagsKept_trans (withinCycle_flagsKept (logErr_withinCycle s1 s2 err hs2))
              (ih (i + 1) _ (by omega))))
        · exact flagsKept_trans h0 hl
      · rename_i s1 heq
        rw [heq] at hl
        exact flagsKept_trans h0 hl
      · rename_i s1 heq
        rw [heq] at hl
        exact flagsKept_trans h0 hl
      · rename_i s1 heq
        rw [heq] at hl
        exact flagsKept_trans h0 hl
    · exact flagsKept_trans h0 (ih (i + 1) _ (by omega))

theorem StartLoop_closed (env : Env) (fuel : Nat) (retry : Int) :
    ∀ (n : Nat) (i : Int) (s : SnotiClient), (retry - i).toNat = n → s.isClosed = true →
      (Run.state (StartLoop env (fuel + 1) retry i s)).isClosed = true ∧
      delivered (Run.state (StartLoop env (fuel + 1) retry i s)) = delivered s ∧
      (∀ s1, StartLoop env (fuel + 1) retry i s ≠ Run.running s1) ∧
      (∀ s1, StartLoop env (fuel + 1) retry i s ≠ Run.panicked s1) := by
  intro n
  induction n with
  | zero =>
    intro i s hn hc
    rw [StartLoop_done env (fuel + 1) retry i s (by omega)]
    exact ⟨hc, rfl, (by intro s1 h; cases h), (by intro s1 h; cases h)⟩
  | succ n ih =>
    intro i s hn hc
    rw [StartLoop_step env (fuel + 1) retry i s (by omega)]
    split
    · rcases loop_closed env fuel { s with isExited := s.isExited || env.signal i.toNat } hc
        with ⟨e, s2, hl, hc2, hd2⟩ | ⟨s2, hl, hc2, hd2⟩
      · rw [hl]
        simp only []
        split
        · rename_i s3 hs3
          have hs := (logErr_some s2 s3 e hs3).2
          have hc3 : s3.isClosed = true := by rw [hs]; exact hc2
          have hd3 : delivered s3 = delivered s2 := by rw [hs]; rfl
          have h := ih (i + 1) s3 (by omega) hc3
          exact ⟨h.1, by rw [h.2.1, hd3]; exact hd2, h.2.2⟩
        · exact ⟨hc2, hd2, (by intro s1 h; cases h), (by intro s1 h; cases h)⟩
      · rw [hl]
        exact ⟨hc2, hd2, (by intro s1 h; cases h), (by intro s1 h; cases h)⟩
    · exact ih (i + 1) _ (by omega) hc

theorem loop_closed_returns (env : Env) (fuel : Nat) (s : SnotiClient)
    (h : s.isClosed = true) (hinfo : s.infoLogChannel.length < 500) :
    ∃ e s1, loop env (fuel + 1) s = Run.returned e s1 := by
  rcases loop_closed env fuel s h with ⟨e, s1, hl, _, _⟩ | ⟨s1, hl, _, _⟩
  · exact ⟨e, s1, hl⟩
  · exfalso
    have hlg : sameLogs s
        (login env { s with
          dials := s.dials + 1, trace := s.trace ++ [Event.dial],
          tlsConn := env.conn s.dials, connReader := (env.conn s.dials).incoming,
          reads := 0, writes := 0 }).2 :=
      sameLogs_trans (b := { s with
          dials := s.dials + 1, trace := s.trace ++ [Event.dial],
          tlsConn := env.conn s.dials, connReader := (env.conn s.dials).incoming,
          reads := 0, writes := 0 }) ⟨rfl, rfl⟩ (login_sameLogs env _)
    obtain ⟨s3, hs3⟩ := loopRemoteCtrl_room _ (by rw [hlg.2]; exact hinfo)
    have hc3 : s3.isClosed = true :=
      (loopRemoteCtrl_withinCycle _ s3 hs3).2.1 ((login_withinCycle env _).2.1 h)
    unfold loop at hl
    simp only [] at hl
    split at hl
    · cases hl
    · split at hl
      · cases hl
      · rw [hs3] at hl
        simp only [] at hl
        rw [loopRead_closed env fuel s3 none hc3] at hl
        cases hl

theorem StartLoop_closed_returns (env : Env) (fuel : Nat) (retry : Int) :
    ∀ (n : Nat) (i : Int) (s : SnotiClient), (retry - i).toNat = n → s.isClosed = true →
      s.errorLogChannel.length + 2 * n ≤ 500 → s.infoLogChannel.length + n < 500 →
      ∃ s1, StartLoop env (fuel + 1) retry i s = Run.returned () s1 ∧
        s1.infoLogChannel.length < 500 := by
  intro n
  induction n with
  | zero =>
    intro i s hn _ _ hinfo
    exact ⟨s, StartLoop_done env (fuel + 1) retry i s (by omega), by omega⟩
  | succ n ih =>
    intro i s hn hc herr hinfo
    rw [StartLoop_step env (fuel + 1) retry i s (by omega)]
    split
    · obtain ⟨e, s2, hl⟩ := loop_closed_returns env fuel
        { s with isExited := s.isExited || env.signal i.toNat } hc
        (by show s.infoLogChannel.length < 500; omega)
      have hst := loop_state env (fuel + 1)
        { s with isExited := s.isExited || env.signal i.toNat }
      have hlg := loop_logs env (fuel + 1)
        { s with isExited := s.isExited || env.signal i.toNat }
      rw [hl] at hst hlg
      simp only [Run.state] at hst hlg
      rw [hl]
      simp only []
      rw [logErr_room s2 e (by omega)]
      simp only []
      exact ih (i + 1) { s2 with errorLogChannel := s2.errorLogChannel ++ [e] } (by omega)
        (hst.2.1 hc)
        (by simp only [List.length_append, List.length_singleton]; omega)
        (by show s2.infoLogChannel.length + n < 500; omega)
    · exact ih (i + 1) _ (by omega) hc
        (by show s.errorLogChannel.length + 2 * n ≤ 500; omega)
        (by show s.infoLogChannel.length + n < 500; omega)

theorem Start_of_StartLoop (env : Env) (fuel : Nat) (s s1 : SnotiClient)
    (hq : s.quitSignal ≠ none)
    (h : StartLoop env fuel (if s.config.Retry = 0 then 3 else s.config.Retry) 0 s
      = Run.returned () s1) :
    Start env fuel s = logInfoAndEnd s1 "[SnotiClient Info] ====> going to exit" := by
  cases hqs : s.quitSignal with
  | none => exact absurd hqs hq
  | some c =>
    simp only [Start, watchAppExitSignal, hqs]
    rw [h]

theorem Start_nil_quitSignal (env : Env) (fuel : Nat) (s : SnotiClient)
    (h : s.quitSignal = none) : Start env fuel s = Run.panicked s := by
  simp [Start, watchAppExitSignal, h]

theorem Start_flagsKept (env : Env) (fuel : Nat) (s : SnotiClient) :
    flagsKept s (Run.state (Start env fuel s)) := by
  cases hqs : s.quitSignal with
  | none =>
    rw [Start_nil_quitSignal env fuel s hqs]
    exact ⟨id, id⟩
  | some c =>
    have h := StartLoop_flagsKept env fuel (if s.config.Retry = 0 then 3 else s.config.Retry)
      _ 0 s rfl
    simp only [Start, watchAppExitSignal, hqs]
    split
    · rename_i s1 heq
      rw [heq] at h
      exact flagsKept_trans h (withinCycle_flagsKept (logInfoAndEnd_withinCycle s1 _))
    · rename_i s1 heq
      rw [heq] at h
      exact h
    · rename_i s1 heq
      rw [heq] at h
      exact h
    · rename_i s1 heq
      rw [heq] at h
      exact h

theorem Start_closed (env : Env) (fuel : Nat) (s : SnotiClient) (hc : s.isClosed = true) :
    (Run.state (Start env (fuel + 1) s)).isClosed = true ∧
    delivered (Run.state (Start env (fuel + 1) s)) = delivered s ∧
    (∀ s1, Start env (fuel + 1) s ≠ Run.running s1) := by
  cases hqs : s.quitSignal with
  | none =>
    rw [Start_nil_quitSignal env (fuel + 1) s hqs]
    exact ⟨hc, rfl, (by intro s1 h; cases h)⟩
  | some c =>
    have h := StartLoop_closed env fuel (if s.config.Retry = 0 then 3 else s.config.Retry)
      _ 0 s rfl hc
    simp only [Start, watchAppExitSignal, hqs]
    split
    · rename_i s1 heq
      rw [heq] at h
      refine ⟨(logInfoAndEnd_withinCycle s1 _).2.1 h.1, ?_, ?_⟩
      · rw [logInfoAndEnd_delivered]
        exact h.2.1
      · exact fun s2 => logInfoAndEnd_not_running s1 s2 _
    · rename_i s1 heq
      exact absurd heq (h.2.2.1 s1)
    · rename_i s1 heq
      rw [heq] at h
      exact ⟨h.1, h.2.1, (by intro s2 h2; cases h2)⟩
    · rename_i s1 heq
      exact absurd heq (h.2.2.2 s1)

theorem Start_closed_returns (env : Env) (fuel : Nat) (s : SnotiClient)
    (hc : s.isClosed = true) (hq : s.quitSignal ≠ none)
    (herr : s.errorLogChannel.length
      + 2 * (if s.config.Retry = 0 then 3 else s.config.Retry).toNat ≤ 500)
    (hinfo : s.infoLogChannel.length
      + (if s.config.Retry = 0 then 3 else s.config.Retry).toNat < 500) :
    ∃ s1, Start env (fuel + 1) s = Run.returned () s1 ∧ s1.isClosed = true ∧
      delivered s1 = delivered s := by
  obtain ⟨s1, h1, hi1⟩ := StartLoop_closed_returns env fuel
    (if s.config.Retry = 0 then 3 else s.config.Retry) _ 0 s (by simp) hc herr hinfo
  have hs : Start env (fuel + 1) s
      = Run.returned () { s1 with infoLogChannel :=
          s1.infoLogChannel ++ ["[SnotiClient Info] ====> going to exit"] } := by
    rw [Start_of_StartLoop env (fuel + 1) s s1 hq h1]
    simp [logInfoAndEnd, logInfo, hi1]
  have hcl := Start_closed env fuel s hc
  rw [hs] at hcl
  exact ⟨_, hs, hcl.1, hcl.2.1⟩

/-- C10. No method, goroutine or cycle takes either flag from true to false:
not `isNetErr`, `read`, `write`, `login`, `handleNotiData`, `eventAck`, the log
methods, the channel sends, nor `loopRead`, `loopWrite`, `heartbeat`, the
remote control loop, `loop` or `Start`, however far they run. Once the closed
flag is set, `isNetErr` returns true for every error, nil included; `loopRead`
returns at once leaving the client as it was (no read, no callback); and
`Start`, wherever it ends, has kept the flag set, has invoked the read callback
for no frame, and is in no read loop that is still running. With `quitSignal`
made and room in the error and info logs for the sends of its cycles, `Start`
returns. -/
theorem closed_flag_is_never_cleared (env : Env) (s : SnotiClient) :
    (∀ (fuel : Nat) (err : Option GoError) (produce : Nat → T),
        flagsKept s (Run.state (Start env fuel s)) ∧
        flagsKept s (Run.state (loop env fuel s)) ∧
        flagsKept s (Run.state (loopRead env fuel s err)) ∧
        flagsKept s (Run.state (loopWrite fuel s)) ∧
        flagsKept s (Run.state (heartbeat fuel s)) ∧
        flagsKept s (Run.state (loopRemoteCtrlGo env produce fuel s))) ∧
    (∀ (err : Option GoError) (data : String) (deliveryId : Int),
        flagsKept s (isNetErr s err).2 ∧ flagsKept s (read s).2 ∧
        flagsKept s (write s data).2 ∧ flagsKept s (login env s).2 ∧
        flagsKept s (handleNotiData env s data).2 ∧ flagsKept s (eventAck s deliveryId).2 ∧
        (∀ s1, loopRemoteCtrl s = some s1 → flagsKept s s1) ∧
        (∀ s1, logErr s err = some s1 → flagsKept s s1) ∧
        (∀ s1, logInfo s data = some s1 → flagsKept s s1) ∧
        (∀ s1, logWarn s data = some s1 → flagsKept s s1) ∧
        (∀ s1, writeChannelSend s data = some s1 → flagsKept s s1) ∧
        (∀ s1, watchAppExitSignal s = some s1 → flagsKept s s1)) ∧
    (s.isClosed = true →
        (∀ err, isNetErr s err = (true, s)) ∧
        (∀ fuel err, loopRead env (fuel + 1) s err = Run.returned err s) ∧
        (∀ fuel, (Run.state (Start env (fuel + 1) s)).isClosed = true ∧
          delivered (Run.state (Start env (fuel + 1) s)) = delivered s ∧
          ∀ s1, Start env (fuel + 1) s ≠ Run.running s1) ∧
        (∀ fuel, s.quitSignal ≠ none →
          s.errorLogChannel.length
            + 2 * (if s.config.Retry = 0 then 3 else s.config.Retry).toNat ≤ 500 →
          s.infoLogChannel.length
            + (if s.config.Retry = 0 then 3 else s.config.Retry).toNat < 500 →
          ∃ s1, Start env (fuel + 1) s = Run.returned () s1 ∧ s1.isClosed = true ∧
            delivered s1 = delivered s)) := by
  refine ⟨?_, ?_, ?_⟩
  · intro fuel err produce
    have hl := loop_state env fuel s
    exact ⟨Start_flagsKept env fuel s,
      ⟨hl.2.1, fun h => by rw [hl.1]; exact h⟩,
      withinCycle_flagsKept (loopRead_withinCycle env err fuel s),
      withinCycle_flagsKept (loopWrite_withinCycle fuel s),
      withinCycle_flagsKept (heartbeat_withinCycle fuel s),
      withinCycle_flagsKept (loopRemoteCtrlGo_withinCycle env produce fuel s)⟩
  · intro err data deliveryId
    refine ⟨withinCycle_flagsKept (isNetErr_withinCycle s err),
      withinCycle_flagsKept (read_withinCycle s),
      withinCycle_flagsKept (write_withinCycle s data),
      withinCycle_flagsKept (login_withinCycle env s),
      withinCycle_flagsKept (handleNotiData_withinCycle env s data),
      withinCycle_flagsKept (eventAck_withinCycle s deliveryId), ?_, ?_, ?_, ?_, ?_, ?_⟩
    · exact fun s1 h => withinCycle_flagsKept (loopRemoteCtrl_withinCycle s s1 h)
    · exact fun s1 h => withinCycle_flagsKept (logErr_withinCycle s s1 err h)
    · exact fun s1 h => withinCycle_flagsKept (logInfo_withinCycle s s1 data h)
    · exact fun s1 h => withinCycle_flagsKept (logWarn_withinCycle s s1 data h)
    · exact fun s1 h => withinCycle_flagsKept (writeChannelSend_withinCycle s s1 data h)
    · intro s1 h
      unfold watchAppExitSignal at h
      split at h
      · cases h
      · rw [← Option.some.inj h]
        exact ⟨id, id⟩
  · intro hc
    exact ⟨fun err => isNetErr_closed s err hc,
      fun fuel err => loopRead_closed env fuel s err hc,
      fun fuel => Start_closed env fuel s hc,
      fun fuel hq herr hinfo => Start_closed_returns env fuel s hc hq herr hinfo⟩

theorem closed_flag_is_never_cleared_witness :
    isNetErr { connected ⟨3, none⟩ (connOf ['a', '\n']) with isClosed := true } none
        = (true, { connected ⟨3, none⟩ (connOf ['a', '\n']) with isClosed := true }) ∧
    loopRead (envOf false (connOf ['a', '\n']) pushFrame) (0 + 1)
        { connected ⟨3, none⟩ (connOf ['a', '\n']) with isClosed := true } none
        = Run.returned none
            { connected ⟨3, none⟩ (connOf ['a', '\n']) with isClosed := true } ∧
    ((Run.state (Start (envOf false (connOf ['a', '\n']) pushFrame) (0 + 1)
        { withQuitSignal ⟨3, none⟩ with isClosed := true })).isClosed = true ∧
      delivered (Run.state (Start (envOf false (connOf ['a', '\n']) pushFrame) (0 + 1)
          { withQuitSignal ⟨3, none⟩ with isClosed := true }))
        = delivered { withQuitSignal ⟨3, none⟩ with isClosed := true } ∧
      ∀ s1, Start (envOf false (connOf ['a', '\n']) pushFrame) (0 + 1)
          { withQuitSignal ⟨3, none⟩ with isClosed := true } ≠ Run.running s1) ∧
    ∃ s1, Start (envOf false (connOf ['a', '\n']) pushFrame) (0 + 1)
        { withQuitSignal ⟨3, none⟩ with isClosed := true } = Run.returned () s1 ∧
      s1.isClosed = true ∧
      delivered s1 = delivered { withQuitSignal ⟨3, none⟩ with isClosed := true } :=
  ⟨((closed_flag_is_never_cleared (envOf false (connOf ['a', '\n']) pushFrame)
      { connected ⟨3, none⟩ (connOf ['a', '\n']) with isClosed := true }).2.2 rfl).1 none,
   ((closed_flag_is_never_cleared (envOf false (connOf ['a', '\n']) pushFrame)
      { connected ⟨3, none⟩ (connOf ['a', '\n']) with isClosed := true }).2.2 rfl).2.1 0 none,
   ((closed_flag_is_never_cleared (envOf false (connOf ['a', '\n']) pushFrame)
      { withQuitSignal ⟨3, none⟩ with isClosed := true }).2.2 rfl).2.2.1 0,
   ((closed_flag_is_never_cleared (envOf false (connOf ['a', '\n']) pushFrame)
      { withQuitSignal ⟨3, none⟩ with isClosed := true }).2.2 rfl).2.2.2 0
      (by decide) (by decide) (by decide)⟩

end GizwitsSac
